import Mathlib

/-!
# Bookati capacity reservation engine — verification development

Shallow embedding of the booking server's capacity reservation engine:
the booking-lock routes and the `create` booking transaction
(`server/src/routes/bookings.ts`), the expired-lock reaper and the Zoho
receipt retry worker (`server/src/jobs/cleanupLocks.ts`), together with
the database rows they read and write (tables `slots`, `booking_locks`,
`bookings`, `queue_jobs`, `tenants`, `services`, `service_offers`,
`users` from the schema migrations).

Machine integers are modelled as `Nat`/`Int`; timestamps as `Nat`
(milliseconds); SQL result sets as Lean lists; each Express handler as a
pure function from a request plus a database state to a response plus a
new database state (a rolled-back transaction returns the input state
unchanged).
-/

namespace Bookati

/-! ## Retry backoff (`cleanupLocks.ts`, Zoho receipt worker constants) -/

def MAX_RETRIES : Nat := 3

def INITIAL_DELAY : Nat := 1000

def MAX_DELAY : Nat := 60000

/-- `calculateDelay` from `cleanupLocks.ts`:
`Math.min(INITIAL_DELAY * Math.pow(2, attempt), MAX_DELAY)`. -/
def calculateDelay (attempt : Nat) : Nat :=
  min (INITIAL_DELAY * 2 ^ attempt) MAX_DELAY

/-! ## Phone normalization (`normalizePhoneNumber` in `bookings.ts`)

The JS function works on strings; we embed it on `List Char`.  The
regex `/[\s\-\(\)]/g` strips whitespace, dashes and parentheses; `isSep`
covers the characters matched by JavaScript's `\s` class together with
`'-'`, `'('`, `')'`. -/

/-- Characters removed by `phone.replace(/[\s\-\(\)]/g, '')`. -/
def isSep (c : Char) : Bool :=
  c = '-' || c = '(' || c = ')' ||
  c.toNat = 9 || c.toNat = 10 || c.toNat = 11 || c.toNat = 12 ||
  c.toNat = 13 || c.toNat = 32 || c.toNat = 160 || c.toNat = 0x1680 ||
  (0x2000 ≤ c.toNat && c.toNat ≤ 0x200a) ||
  c.toNat = 0x2028 || c.toNat = 0x2029 || c.toNat = 0x202f ||
  c.toNat = 0x205f || c.toNat = 0x3000 || c.toNat = 0xfeff

/-- The cleaning pass of `normalizePhoneNumber`. -/
def cleanPhone (p : List Char) : List Char :=
  p.filter (fun c => !isSep c)

/-- `withoutZero.startsWith('1') || startsWith('2') || startsWith('5')`:
valid Egyptian mobile leading digit. -/
def egStartChar (c : Char) : Bool :=
  c = '1' || c = '2' || c = '5'

/-- Head-of-list version of `egStartChar` (JS `startsWith` on a possibly
empty string). -/
def egStart : List Char → Bool
  | [] => false
  | c :: _ => egStartChar c

/-- The Egypt rewrite applied to a number already in `+...` form: if it
reads `+200…` with at least 10 characters after the `+20`
(`afterCode.length >= 10`, i.e. at least 9 after the dropped zero) and
a valid mobile digit after the dropped zero, remove that zero;
otherwise return the input unchanged.  This is the body of the
`cleaned.startsWith('+20')` block of `normalizePhoneNumber`, shared by
the `'+'` and `'00'` branches (JS `startsWith`/`substring` become
`List.take`/`List.drop`). -/
def fixEgypt (s : List Char) : List Char :=
  if s.take 4 = ['+', '2', '0', '0'] ∧ 9 ≤ (s.drop 4).length ∧ egStart (s.drop 4) then
    '+' :: '2' :: '0' :: s.drop 4
  else s

/-- The branch chain of `normalizePhoneNumber` acting on the cleaned
character list, in source order: already-international `+…`, the `00…`
prefix, bare Egyptian `0XXXXXXXXXX`, country code without `+`
(`20…`, length ≥ 12), and a bare 10-digit Egyptian mobile. -/
def normCore (s : List Char) : Option (List Char) :=
  if s.take 1 = ['+'] then some (fixEgypt s)
  else if s.take 2 = ['0', '0'] then some (fixEgypt ('+' :: s.drop 2))
  else if s.take 1 = ['0'] ∧ s.length = 11 ∧ egStart (s.drop 1) then
    some ('+' :: '2' :: '0' :: s.drop 1)
  else if s.take 2 = ['2', '0'] ∧ 12 ≤ s.length then
    if (s.drop 2).take 1 = ['0'] ∧ 10 ≤ (s.drop 2).length ∧ egStart (s.drop 3) then
      some ('+' :: '2' :: '0' :: s.drop 3)
    else some ('+' :: s)
  else if s.length = 10 ∧ egStart s then
    some ('+' :: '2' :: '0' :: s)
  else none

/-- `normalizePhoneNumber` from `bookings.ts` on `List Char`:
`null` becomes `none`. -/
def normalizePhoneNumber (p : List Char) : Option (List Char) :=
  if p = [] then none else normCore (cleanPhone p)

/-! ## Data model (schema migrations) -/

/-- Row of `tenants` (the columns the booking routes read). -/
structure Tenant where
  id : Nat
  is_active : Bool
  deriving DecidableEq

/-- Row of `services` (joined by `validate-qr`). -/
structure Service where
  id : Nat
  tenant_id : Nat
  deriving DecidableEq

/-- Row of `service_offers` (the columns `create` reads). -/
structure ServiceOffer where
  id : Nat
  service_id : Nat
  is_active : Bool
  price : Int
  deriving DecidableEq

/-- Row of `slots` (capacity-bearing columns). -/
structure Slot where
  id : Nat
  total_capacity : Nat
  available_capacity : Nat
  remaining_capacity : Nat
  booked_count : Nat
  is_available : Bool
  deriving DecidableEq

/-- Row of `booking_locks`. -/
structure BookingLock where
  id : Nat
  slot_id : Nat
  reserved_by_session_id : String
  reserved_capacity : Nat
  lock_acquired_at : Nat
  lock_expires_at : Nat
  deriving DecidableEq

/-- Row of `bookings` (the columns the booking routes read or write). -/
structure Booking where
  id : Nat
  tenant_id : Nat
  service_id : Nat
  slot_id : Nat
  employee_id : Option Nat
  customer_name : List Char
  customer_phone : List Char
  customer_email : Option (List Char)
  visitor_count : Nat
  adult_count : Nat
  child_count : Nat
  total_price : Int
  notes : Option (List Char)
  status : String
  payment_status : String
  customer_id : Option String
  offer_id : Option Nat
  language : String
  qr_scanned : Bool
  qr_scanned_at : Option Nat
  qr_scanned_by_user_id : Option String
  checked_in_at : Option Nat
  checked_in_by_user_id : Option String
  zoho_invoice_id : Option String
  deriving DecidableEq

/-- Row of `queue_jobs`; the worker's `payload` fields
(`booking_id`, `tenant_id`, `attempt`) are flattened into columns. -/
structure QueueJob where
  id : Nat
  job_type : String
  status : String
  payload_booking_id : Nat
  payload_tenant_id : Nat
  payload_attempt : Nat
  attempts : Nat
  created_at : Nat
  started_at : Option Nat
  completed_at : Option Nat
  deriving DecidableEq

/-- Row of `users` (the columns `validate-qr` reads). -/
structure User where
  id : String
  role : String
  tenant_id : Nat
  deriving DecidableEq

/-- The database tables touched by the reservation engine.
Timestamps are `Nat` milliseconds. -/
structure DBState where
  tenants : List Tenant
  services : List Service
  service_offers : List ServiceOffer
  slots : List Slot
  booking_locks : List BookingLock
  bookings : List Booking
  queue_jobs : List QueueJob
  users : List User
  deriving DecidableEq

/-! ## Slot Ledger release (DB-side code missing from src)

The routes call the database functions `acquire_booking_lock` /
`validate_booking_lock` and rely on database-side capacity accounting,
but those SQL definitions are not among the provided migrations. -/

/-- Modelled from the spec: Slot Ledger `release(slotId, amount)` (spec
§4.1) — the database-side capacity return that runs when a
`booking_locks` row is deleted.  The SQL function/trigger implementing
it is not under `src/` (only its callers and the `slots` table are).
Per §4.1 it "always succeeds; increments `available_capacity` back up
to at most `total_capacity` (defensive clamp)". -/
def slotRelease (slotId amount : Nat) (slots : List Slot) : List Slot :=
  slots.map (fun s =>
    if s.id == slotId then
      { s with available_capacity := min (s.available_capacity + amount) s.total_capacity }
    else s)

/-- Capacity returned for a batch of deleted locks: Slot Ledger
`release` applied once per deleted lock. -/
def releaseLocksCapacity (deleted : List BookingLock) (slots : List Slot) : List Slot :=
  deleted.foldl (fun acc l => slotRelease l.slot_id l.reserved_capacity acc) slots

/-! ## Lock release route (`POST /lock/:lock_id/release`) -/

inductive ReleaseError
  | SessionRequired
  | NotFound
  deriving DecidableEq

/-- `POST /lock/:lock_id/release` from `bookings.ts`: resolve the
session (`req.user?.id || req.body.session_id`), then
`DELETE FROM booking_locks WHERE id = $1 AND reserved_by_session_id = $2
RETURNING id`; 404 when no row matched.  The capacity return for the
deleted row is the database-side `slotRelease` (see its doc comment). -/
def releaseLock (lockId : Nat) (userId sessionIdBody : Option String) (st : DBState) :
    Except ReleaseError Unit × DBState :=
  match userId.orElse (fun _ => sessionIdBody) with
  | none => (.error .SessionRequired, st)
  | some sid =>
    let deleted := st.booking_locks.filter
      (fun l => l.id == lockId && l.reserved_by_session_id == sid)
    if deleted.isEmpty then
      (.error .NotFound, st)
    else
      (.ok (),
        { st with
          booking_locks := st.booking_locks.filter
            (fun l => !(l.id == lockId && l.reserved_by_session_id == sid))
          slots := releaseLocksCapacity deleted st.slots })

/-! ## Lock Reaper (`cleanupExpiredLocks` in `cleanupLocks.ts`) -/

/-- One reaper cycle: `DELETE FROM booking_locks WHERE lock_expires_at
<= NOW() RETURNING id, slot_id, reserved_by_session_id`.  The capacity
return for the deleted rows is the database-side `slotRelease` (see its
doc comment). -/
def cleanupExpiredLocks (now : Nat) (st : DBState) : DBState :=
  let expired := st.booking_locks.filter (fun l => decide (l.lock_expires_at ≤ now))
  { st with
    booking_locks := st.booking_locks.filter (fun l => !decide (l.lock_expires_at ≤ now))
    slots := releaseLocksCapacity expired st.slots }

/-! ## Booking creation (`POST /create` in `bookings.ts`) -/

/-- The typed failures of the `create` route, in source order of their
early-return checks; every one rolls the transaction back. -/
inductive CreateError
  | MissingFields
  | InvalidPhone
  | TenantNotFound
  | TenantDeactivated
  | SessionRequired
  | LockExpiredOrInvalid
  | SessionMismatch
  | SlotMismatch
  | QuantityMismatch
  | SlotNotFound
  | SlotUnavailable
  | InsufficientCapacity
  | OfferNotFound
  | OfferServiceMismatch
  | HeadCountMismatch
  deriving DecidableEq

/-- The `req.body` fields the `create` handler destructures, plus
`req.user?.id` from the JWT middleware.  Absent (falsy) fields are
`none` / `[]`; `visitor_count` carries its JS default of 1. -/
structure CreateBookingRequest where
  slot_id : Option Nat
  service_id : Option Nat
  tenant_id : Option Nat
  customer_name : List Char
  customer_phone : List Char
  customer_email : Option (List Char)
  visitor_count : Nat
  adult_count : Option Nat
  child_count : Option Nat
  total_price : Int
  notes : Option (List Char)
  employee_id : Option Nat
  lock_id : Option Nat
  session_id : Option String
  offer_id : Option Nat
  language : String
  user_id : Option String
  deriving DecidableEq

/-- The validated values the commit step of `create` uses. -/
structure CheckedRequest where
  slotId : Nat
  serviceId : Nat
  tenantId : Nat
  normalizedPhone : List Char
  finalAdultCount : Nat
  finalChildCount : Nat
  deriving DecidableEq

/-- Steps 1–6 of the `create` transaction: every statement before the
booking `INSERT` is a read, so the validation prefix is a pure function
of the request and the database state.  Checks appear in source order:
required fields, phone normalization, tenant existence/activation, lock
validation (when `lock_id` was supplied), slot availability and
capacity under `FOR UPDATE`, offer validation, head-count arithmetic. -/
def createBookingChecks (now : Nat) (req : CreateBookingRequest) (st : DBState) :
    Except CreateError CheckedRequest :=
  match req.slot_id, req.service_id, req.tenant_id with
  | some slotId, some serviceId, some tenantId =>
    if req.customer_name = [] ∨ req.customer_phone = [] then .error .MissingFields
    else
      match normalizePhoneNumber req.customer_phone with
      | none => .error .InvalidPhone
      | some normalizedPhone =>
        match st.tenants.find? (fun t => t.id == tenantId) with
        | none => .error .TenantNotFound
        | some tenant =>
          if tenant.is_active = false then .error .TenantDeactivated
          else
            (match req.lock_id with
             | none => Except.ok ()
             | some lockId =>
               match req.user_id.orElse (fun _ => req.session_id) with
               | none => .error .SessionRequired
               | some expectedSessionId =>
                 match st.booking_locks.find?
                     (fun l => l.id == lockId && decide (now < l.lock_expires_at)) with
                 | none => .error .LockExpiredOrInvalid
                 | some lock =>
                   if lock.reserved_by_session_id ≠ expectedSessionId then
                     .error .SessionMismatch
                   else if lock.slot_id ≠ slotId then .error .SlotMismatch
                   else if lock.reserved_capacity ≠ req.visitor_count then
                     .error .QuantityMismatch
                   else .ok ()) >>= fun _ =>
            match st.slots.find? (fun s => s.id == slotId) with
            | none => .error .SlotNotFound
            | some slot =>
              if slot.is_available = false then .error .SlotUnavailable
              else if slot.available_capacity < req.visitor_count then
                .error .InsufficientCapacity
              else
                (match req.offer_id with
                 | none => Except.ok ()
                 | some offerId =>
                   match st.service_offers.find?
                       (fun o => o.id == offerId && o.is_active) with
                   | none => .error .OfferNotFound
                   | some offer =>
                     if offer.service_id ≠ serviceId then .error .OfferServiceMismatch
                     else .ok ()) >>= fun _ =>
                let finalAdultCount := req.adult_count.getD req.visitor_count
                let finalChildCount := req.child_count.getD 0
                if finalAdultCount + finalChildCount ≠ req.visitor_count then
                  .error .HeadCountMismatch
                else
                  .ok ⟨slotId, serviceId, tenantId, normalizedPhone,
                       finalAdultCount, finalChildCount⟩
  | _, _, _ => .error .MissingFields

/-- The `INSERT INTO bookings … RETURNING *` row built by `create`. -/
def mkBooking (newId : Nat) (req : CreateBookingRequest) (c : CheckedRequest) : Booking :=
  { id := newId
    tenant_id := c.tenantId
    service_id := c.serviceId
    slot_id := c.slotId
    employee_id := req.employee_id
    customer_name := req.customer_name
    customer_phone := c.normalizedPhone
    customer_email := req.customer_email
    visitor_count := req.visitor_count
    adult_count := c.finalAdultCount
    child_count := c.finalChildCount
    total_price := req.total_price
    notes := req.notes
    status := "confirmed"
    payment_status := "unpaid"
    customer_id := req.user_id
    offer_id := req.offer_id
    language := if req.language = "ar" ∨ req.language = "en" then req.language else "en"
    qr_scanned := false
    qr_scanned_at := none
    qr_scanned_by_user_id := none
    checked_in_at := none
    checked_in_by_user_id := none
    zoho_invoice_id := none }

/-- What `create` returns to the caller on success, together with the
work it schedules with `process.nextTick` after responding.  Neither
deferred task runs inside the transaction and neither touches the
committed state. -/
structure CreateSuccess where
  booking : Booking
  invoiceDeferred : Bool
  ticketDeferred : Bool
  deriving DecidableEq

/-- The whole `POST /create` handler: `BEGIN`, the validation prefix
(`createBookingChecks`), then on success the booking `INSERT`, the
`DELETE FROM booking_locks WHERE id = $1` for a consumed lock, and
`COMMIT`; every failure path rolls back and leaves the database
untouched.  After the commit the handler schedules the invoice dispatch
(`process.nextTick` → `zohoService.generateReceipt`, when any contact
field is truthy) and the ticket dispatch; no row of `queue_jobs` is
written. -/
def createBooking (now newId : Nat) (req : CreateBookingRequest) (st : DBState) :
    Except CreateError CreateSuccess × DBState :=
  match createBookingChecks now req st with
  | .error e => (.error e, st)
  | .ok c =>
    let booking := mkBooking newId req c
    let st' : DBState :=
      { st with
        bookings := st.bookings ++ [booking]
        booking_locks :=
          match req.lock_id with
          | some lockId => st.booking_locks.filter (fun l => l.id != lockId)
          | none => st.booking_locks }
    (.ok
      { booking := booking
        invoiceDeferred :=
          !c.normalizedPhone.isEmpty || !req.customer_phone.isEmpty ||
            (match req.customer_email with
             | some e => !e.isEmpty
             | none => false)
        ticketDeferred := true },
      st')

/-! ## QR validation (`POST /validate-qr` in `bookings.ts`) -/

inductive QRError
  | MissingBookingId
  | AuthRequired
  | UserNotFound
  | RoleForbidden
  | BookingNotFound
  | TenantMismatch
  | AlreadyScanned
  deriving DecidableEq

/-- The role gate of `validate-qr`: cashier, receptionist or
tenant admin. -/
def canValidateQR (role : String) : Bool :=
  role == "cashier" || role == "receptionist" || role == "tenant_admin"

/-- The check-in update applied by `validate-qr`'s
`UPDATE bookings SET qr_scanned = true, … WHERE id = $2`. -/
def markScanned (now : Nat) (uid : String) (b : Booking) : Booking :=
  { b with
    qr_scanned := true
    qr_scanned_at := some now
    qr_scanned_by_user_id := some uid
    status := "checked_in"
    checked_in_at := some now
    checked_in_by_user_id := some uid }

/-- The booking read of `validate-qr`: `SELECT … FROM bookings b JOIN
services s ON b.service_id = s.id JOIN slots ts ON b.slot_id = ts.id
WHERE b.id = $1` — the inner joins make a missing `services` or `slots`
row indistinguishable from a missing booking. -/
def bookingJoin (st : DBState) (bid : Nat) : Option Booking :=
  (st.bookings.find? (fun b => b.id == bid)).bind (fun b =>
    (st.services.find? (fun s => s.id == b.service_id)).bind (fun _ =>
      (st.slots.find? (fun s => s.id == b.slot_id)).map (fun _ => b)))

/-- `POST /validate-qr`: role-gated QR check-in.  The booking read
inner-joins `services` and `slots`, so a missing joined row is also
`Booking not found`.  An already-scanned booking returns 409 and writes
nothing; otherwise the booking row is updated to checked-in. -/
def validateQR (now : Nat) (userId : Option String) (bookingId : Option Nat)
    (st : DBState) : Except QRError Booking × DBState :=
  match bookingId with
  | none => (.error .MissingBookingId, st)
  | some bid =>
    match userId with
    | none => (.error .AuthRequired, st)
    | some uid =>
      match st.users.find? (fun u => u.id == uid) with
      | none => (.error .UserNotFound, st)
      | some user =>
        if !canValidateQR user.role then (.error .RoleForbidden, st)
        else
          match bookingJoin st bid with
          | none => (.error .BookingNotFound, st)
          | some booking =>
            if booking.tenant_id != user.tenant_id then (.error .TenantMismatch, st)
            else if booking.qr_scanned then (.error .AlreadyScanned, st)
            else
              (.ok booking,
                { st with
                  bookings := st.bookings.map (fun b =>
                    if b.id == bid then markScanned now uid b else b) })

/-! ## Zoho receipt retry worker (`cleanupLocks.ts`) -/

/-- The columns `processReceiptJob` reads from `bookings`. -/
structure BookingInvoiceRow where
  zoho_invoice_id : Option String
  payment_status : String
  deriving DecidableEq

/-- Result of one `processReceiptJob` run: the updated `queue_jobs`
row, whether `zohoService.generateReceipt` was invoked, and the backoff
delay when a retry was scheduled (the source computes it with
`calculateDelay` and logs it; the staleness window enforces it). -/
structure ProcessOutcome where
  job : QueueJob
  invokedEffect : Bool
  retryDelay : Option Nat
  deriving DecidableEq

/-- `processReceiptJob` from `cleanupLocks.ts`.  `bookingRow` is the
result of the booking lookup (`none` models the "Booking not found"
throw, which the catch block treats like any other failure);
`effectSuccess` is the outcome `zohoService.generateReceipt` would
report.  On failure: reaching `MAX_RETRIES` marks the job `failed`,
otherwise the attempt counters are bumped and the job returns to
`pending`. -/
def processReceiptJob (now : Nat) (bookingRow : Option BookingInvoiceRow)
    (effectSuccess : Bool) (job : QueueJob) : ProcessOutcome :=
  let attempt := job.payload_attempt
  let failPath : Bool → ProcessOutcome := fun invoked =>
    let nextAttempt := attempt + 1
    if MAX_RETRIES ≤ nextAttempt then
      ⟨{ job with status := "failed", completed_at := some now }, invoked, none⟩
    else
      ⟨{ job with
          status := "pending"
          attempts := nextAttempt
          payload_attempt := nextAttempt },
        invoked, some (calculateDelay nextAttempt)⟩
  match bookingRow with
  | none => failPath false
  | some booking =>
    if booking.zoho_invoice_id.isSome then
      ⟨{ job with status := "completed", completed_at := some now }, false, none⟩
    else if booking.payment_status ≠ "paid" then
      ⟨{ job with status := "failed", completed_at := some now }, false, none⟩
    else if effectSuccess then
      ⟨{ job with status := "completed", completed_at := some now }, true, none⟩
    else
      failPath true

/-- Staleness window of the sweep's `started_at < now() - interval
'5 minutes'` clause, in milliseconds. -/
def STALE_THRESHOLD : Nat := 5 * 60 * 1000

/-- The sweep's selection predicate (`processZohoReceiptJobs` query):
`job_type = 'zoho_receipt' AND status = 'pending' AND (started_at IS
NULL OR started_at < now() - interval '5 minutes')`. -/
def selectedForSweep (now : Nat) (j : QueueJob) : Bool :=
  j.job_type == "zoho_receipt" && j.status == "pending" &&
    (match j.started_at with
     | none => true
     | some t => decide (t < now - STALE_THRESHOLD))

/-- The sweep's claim step before processing:
`UPDATE queue_jobs SET status = 'processing', started_at = now()`. -/
def markProcessing (now : Nat) (j : QueueJob) : QueueJob :=
  { j with status := "processing", started_at := some now }

/-- What one sweep cycle does to a single job: if the selection query
picks it, claim it and run `processReceiptJob`; otherwise it is left
untouched. -/
def receiptSweepStep (now : Nat) (bookingRow : Option BookingInvoiceRow)
    (effectSuccess : Bool) (j : QueueJob) : ProcessOutcome :=
  if selectedForSweep now j then
    processReceiptJob now bookingRow effectSuccess (markProcessing now j)
  else
    ⟨j, false, none⟩

/-! ## Specification predicates -/

/-- Lists free of the characters the phone cleaning pass strips. -/
def NoSep (l : List Char) : Prop := ∀ c ∈ l, isSep c = false

/-- The database effect of a committed `create` transaction: exactly
the new booking row appended, the consumed lock (if one was supplied)
gone and every other lock kept, and every other table untouched. -/
def CreateCommitted (req : CreateBookingRequest) (st st' : DBState) (b : Booking) : Prop :=
  st'.bookings = st.bookings ++ [b] ∧
  (∀ l : BookingLock, l ∈ st'.booking_locks ↔
      (l ∈ st.booking_locks ∧ req.lock_id ≠ some l.id)) ∧
  st'.tenants = st.tenants ∧
  st'.services = st.services ∧
  st'.service_offers = st.service_offers ∧
  st'.slots = st.slots ∧
  st'.queue_jobs = st.queue_jobs ∧
  st'.users = st.users

/-- Step 1 of the `create` transaction succeeds: either no lock id was
supplied, or a session was resolved and the supplied lock is unexpired
and matches session, slot and quantity. -/
def lockStepPasses (now : Nat) (req : CreateBookingRequest) (slotId : Nat)
    (st : DBState) : Prop :=
  match req.lock_id with
  | none => True
  | some lockId =>
    ∃ sid lock,
      req.user_id.orElse (fun _ => req.session_id) = some sid ∧
      st.booking_locks.find?
          (fun l => l.id == lockId && decide (now < l.lock_expires_at)) = some lock ∧
      lock.reserved_by_session_id = sid ∧
      lock.slot_id = slotId ∧
      lock.reserved_capacity = req.visitor_count

/-- Total reserved capacity of the expired locks of one slot: what a
reaper cycle at time `now` gives back to that slot. -/
def expiredReservedFor (now : Nat) (st : DBState) (slotId : Nat) : Nat :=
  (((st.booking_locks.filter (fun l => decide (l.lock_expires_at ≤ now))).filter
      (fun l => l.slot_id == slotId)).map (fun l => l.reserved_capacity)).sum

/-! ## Concrete fixtures (witness inputs) -/

def egTenant : Tenant := ⟨1, true⟩

def egService : Service := ⟨20, 1⟩

def egSlot : Slot := ⟨10, 5, 3, 5, 0, true⟩

def egLock : BookingLock := ⟨100, 10, "sess1", 2, 0, 120000⟩

def egUser : User := ⟨"u1", "cashier", 1⟩

def egState : DBState :=
  ⟨[egTenant], [egService], [], [egSlot], [egLock], [], [], [egUser]⟩

def egReq : CreateBookingRequest :=
  ⟨some 10, some 20, some 1, "Alice".toList, "+201032560826".toList, none, 2,
    none, none, 100, none, none, some 100, some "sess1", none, "en", none⟩

/-- `egReq` with the slot id missing. -/
def egBadReq : CreateBookingRequest :=
  ⟨none, some 20, some 1, "Alice".toList, "+201032560826".toList, none, 2,
    none, none, 100, none, none, some 100, some "sess1", none, "en", none⟩

def egChecked : CheckedRequest :=
  ⟨10, 20, 1, "+201032560826".toList, 2, 0⟩

def egOk : CreateSuccess :=
  ⟨mkBooking 77 egReq egChecked, true, true⟩

/-- A committed booking of the sample tenant, for the QR route. -/
def egBooking (i : Nat) : Booking := mkBooking i egReq egChecked

/-- `egBooking 500` already checked in. -/
def egScannedBooking : Booking := { egBooking 500 with qr_scanned := true }

/-- State with one scanned and one unscanned booking. -/
def egQRState : DBState :=
  ⟨[egTenant], [egService], [], [egSlot], [],
    [egScannedBooking, egBooking 501], [], [egUser]⟩

/-- A fresh pending receipt job for the retry worker. -/
def egJob : QueueJob :=
  ⟨1, "zoho_receipt", "pending", 500, 1, 0, 0, 0, none, none⟩

/-- The booking row the worker reads: paid, no invoice yet. -/
def egPaidRow : BookingInvoiceRow := ⟨none, "paid"⟩

/-! ## Helper lemmas: phone normalization -/

theorem noSep_cleanPhone (p : List Char) : NoSep (cleanPhone p) := by
  intro c hc
  rw [cleanPhone] at hc
  have := List.of_mem_filter hc
  simpa using this

theorem cleanPhone_eq_self {l : List Char} (h : NoSep l) : cleanPhone l = l := by
  rw [cleanPhone]
  apply List.filter_eq_self.mpr
  intro c hc
  simp [h c hc]

theorem NoSep.drop {l : List Char} (h : NoSep l) (n : Nat) : NoSep (l.drop n) :=
  fun c hc => h c (List.drop_subset n l hc)

theorem NoSep.cons {c : Char} {l : List Char} (hc : isSep c = false) (h : NoSep l) :
    NoSep (c :: l) := by
  intro d hd
  rcases List.mem_cons.mp hd with rfl | hd'
  · exact hc
  · exact h d hd'

theorem head?_of_take_one {s : List Char} {c : Char} (h : s.take 1 = [c]) :
    s.head? = some c := by
  cases s with
  | nil => simp at h
  | cons a tl =>
    simp at h
    simp [h]

theorem head_fixEgypt {s : List Char} (h : s.head? = some '+') :
    (fixEgypt s).head? = some '+' := by
  rw [fixEgypt]
  split
  · rfl
  · exact h

theorem fixEgypt_noSep {s : List Char} (h : NoSep s) : NoSep (fixEgypt s) := by
  rw [fixEgypt]
  split
  · exact NoSep.cons (by decide) (NoSep.cons (by decide)
      (NoSep.cons (by decide) (h.drop 4)))
  · exact h

theorem fixEgypt_of_egStart {l : List Char} (h : egStart l = true) :
    fixEgypt ('+' :: '2' :: '0' :: l) = '+' :: '2' :: '0' :: l := by
  cases l with
  | nil => simp [egStart] at h
  | cons c tl =>
    have hc : (c = '1' ∨ c = '2') ∨ c = '5' := by
      simpa [egStart, egStartChar] using h
    rw [fixEgypt, if_neg]
    rintro ⟨h1, -, -⟩
    have hc0 : c = '0' := by simpa using h1
    rcases hc with (rfl | rfl) | rfl <;> simp at hc0

theorem fixEgypt_idem (s : List Char) : fixEgypt (fixEgypt s) = fixEgypt s := by
  by_cases h : s.take 4 = ['+', '2', '0', '0'] ∧ 9 ≤ (s.drop 4).length ∧
      egStart (s.drop 4)
  · have h1 : fixEgypt s = '+' :: '2' :: '0' :: s.drop 4 := by rw [fixEgypt, if_pos h]
    rw [h1]
    exact fixEgypt_of_egStart h.2.2
  · have h1 : fixEgypt s = s := by rw [fixEgypt, if_neg h]
    rw [h1, h1]

theorem normCore_head {s r : List Char} (h : normCore s = some r) :
    r.head? = some '+' := by
  rw [normCore] at h
  split_ifs at h with h1 h2 h3 h4 h5 h6
  · injection h with h
    subst h
    exact head_fixEgypt (head?_of_take_one h1)
  · injection h with h
    subst h
    exact head_fixEgypt rfl
  · injection h with h
    subst h
    rfl
  · injection h with h
    subst h
    rfl
  · injection h with h
    subst h
    rfl
  · injection h with h
    subst h
    rfl

theorem normCore_noSep {s r : List Char} (hs : NoSep s) (h : normCore s = some r) :
    NoSep r := by
  rw [normCore] at h
  split_ifs at h
  · injection h with h
    subst h
    exact fixEgypt_noSep hs
  · injection h with h
    subst h
    exact fixEgypt_noSep (NoSep.cons (by decide) (hs.drop 2))
  · injection h with h
    subst h
    exact NoSep.cons (by decide) (NoSep.cons (by decide)
      (NoSep.cons (by decide) (hs.drop 1)))
  · injection h with h
    subst h
    exact NoSep.cons (by decide) (NoSep.cons (by decide)
      (NoSep.cons (by decide) (hs.drop 3)))
  · injection h with h
    subst h
    exact NoSep.cons (by decide) hs
  · injection h with h
    subst h
    exact NoSep.cons (by decide) (NoSep.cons (by decide)
      (NoSep.cons (by decide) hs))

theorem normCore_fix {s r : List Char} (h : normCore s = some r) :
    fixEgypt r = r := by
  rw [normCore] at h
  split_ifs at h with h1 h2 h3 h4 h5 h6
  · injection h with h
    subst h
    exact fixEgypt_idem s
  · injection h with h
    subst h
    exact fixEgypt_idem _
  · injection h with h
    subst h
    exact fixEgypt_of_egStart h3.2.2
  · injection h with h
    subst h
    exact fixEgypt_of_egStart h5.2.2
  · injection h with h
    subst h
    rw [fixEgypt, if_neg]
    rintro ⟨k1, k2, k3⟩
    have hs3 : s.take 3 = ['2', '0', '0'] := by simpa using k1
    have hs' : s = '2' :: '0' :: '0' :: s.drop 3 := by
      conv_lhs => rw [← List.take_append_drop 3 s]
      rw [hs3]
      rfl
    have hd2 : List.drop 2 s = '0' :: List.drop 3 s := by
      conv_lhs => rw [hs']
      rfl
    have k2' : 9 ≤ (List.drop 3 s).length := by simpa using k2
    have k3' : egStart (List.drop 3 s) = true := by simpa using k3
    apply h5
    refine ⟨?_, ?_, k3'⟩
    · rw [hd2]
      rfl
    · rw [hd2]
      simpa using k2'
  · injection h with h
    subst h
    exact fixEgypt_of_egStart h6.2

theorem normCore_plus {r : List Char} (h : r.head? = some '+') :
    normCore r = some (fixEgypt r) := by
  have h1 : r.take 1 = ['+'] := by
    cases r with
    | nil => simp at h
    | cons a tl =>
      simp at h
      simp [h]
  rw [normCore, if_pos h1]

theorem normalizePhone_output {p r : List Char}
    (h : normalizePhoneNumber p = some r) :
    r.head? = some '+' ∧ normalizePhoneNumber r = some r := by
  rw [normalizePhoneNumber] at h
  split_ifs at h with hp
  have hhead := normCore_head h
  have hnosep := normCore_noSep (noSep_cleanPhone p) h
  have hfix := normCore_fix h
  refine ⟨hhead, ?_⟩
  have hne : r ≠ [] := by
    intro hr
    rw [hr] at hhead
    simp at hhead
  rw [normalizePhoneNumber, if_neg hne, cleanPhone_eq_self hnosep,
      normCore_plus hhead, hfix]

/-! ## Claim C9 -/

/-- **C9.** For every input string, `normalizePhoneNumber` returns
either `null` (`none`) or a string that begins with `'+'`; and it is
idempotent on its own outputs: whenever it returns a string `r`,
normalizing `r` again returns `r` itself. -/
theorem c9_normalize_phone_plus_idempotent (p r : List Char)
    (h : normalizePhoneNumber p = some r) :
    r.head? = some '+' ∧ normalizePhoneNumber r = some r :=
  normalizePhone_output h

/-- Witness for C9 at the source's own example,
`+2001032560826 → +201032560826`. -/
theorem c9_normalize_phone_witness :
    ("+201032560826".toList.head? = some '+') ∧
      normalizePhoneNumber "+201032560826".toList = some "+201032560826".toList :=
  c9_normalize_phone_plus_idempotent "+2001032560826".toList "+201032560826".toList
    (by decide)

/-! ## Claim C8 -/

/-- **C8.** The retry delay computed for attempt counter `a` equals
`min(initial_delay * 2^a, max_delay)` with `initial_delay = 1000` ms and
`max_delay = 60000` ms; the worker schedules exactly this delay for the
incremented attempt counter; consecutive computed delays are
non-decreasing in the attempt counter and never exceed `max_delay`. -/
theorem c8_retry_backoff :
    (∀ a : Nat, calculateDelay a = min (INITIAL_DELAY * 2 ^ a) MAX_DELAY) ∧
    INITIAL_DELAY = 1000 ∧ MAX_DELAY = 60000 ∧
    (∀ (now : Nat) (row : Option BookingInvoiceRow) (eff : Bool) (j : QueueJob)
        (d : Nat), (processReceiptJob now row eff j).retryDelay = some d →
          d = calculateDelay (j.payload_attempt + 1)) ∧
    (∀ a b : Nat, a ≤ b → calculateDelay a ≤ calculateDelay b) ∧
    (∀ a : Nat, calculateDelay a ≤ MAX_DELAY) := by
  refine ⟨fun a => rfl, rfl, rfl, ?_, fun a b hab => ?_, fun a => min_le_right _ _⟩
  · intro now row eff j d h
    cases row with
    | none =>
      simp only [processReceiptJob] at h
      split_ifs at h
      all_goals simp_all
    | some booking =>
      simp only [processReceiptJob] at h
      split_ifs at h
      all_goals simp_all
  · exact min_le_min (Nat.mul_le_mul_left _ (Nat.pow_le_pow_right (by norm_num) hab))
      le_rfl

/-- Witness for C8 at attempts 1 and 2 and on a concrete failing job. -/
theorem c8_retry_backoff_witness :
    calculateDelay 1 = min (INITIAL_DELAY * 2 ^ 1) MAX_DELAY ∧
      calculateDelay 1 ≤ calculateDelay 2 ∧
      calculateDelay 9 ≤ MAX_DELAY ∧
      (2000 : Nat) = calculateDelay (egJob.payload_attempt + 1) :=
  ⟨c8_retry_backoff.1 1,
    c8_retry_backoff.2.2.2.2.1 1 2 (by decide),
    c8_retry_backoff.2.2.2.2.2 9,
    c8_retry_backoff.2.2.2.1 0 (some egPaidRow) false egJob 2000 (by decide)⟩

/-! ## Helper lemmas: the create transaction -/

theorem createBooking_error_state {now newId : Nat} {req : CreateBookingRequest}
    {st : DBState} {e : CreateError}
    (h : (createBooking now newId req st).1 = .error e) :
    (createBooking now newId req st).2 = st := by
  cases hc : createBookingChecks now req st with
  | error e' => simp [createBooking, hc]
  | ok c => simp [createBooking, hc] at h

theorem createBooking_of_checks_error {now newId : Nat} {req : CreateBookingRequest}
    {st : DBState} {e : CreateError}
    (h : createBookingChecks now req st = .error e) :
    createBooking now newId req st = (.error e, st) := by
  simp [createBooking, h]

/-! ## Claim C1 -/

/-- **C1.** Every `create` request either fails with no visible state
change at all (no booking row inserted, no lock row deleted, nothing
else touched), or commits atomically: exactly one booking row is
appended, the supplied lock (if any) is deleted while every other lock
survives, and no other table changes. -/
theorem c1_create_booking_atomic (now newId : Nat) (req : CreateBookingRequest)
    (st : DBState) :
    (∀ e : CreateError, (createBooking now newId req st).1 = .error e →
        (createBooking now newId req st).2 = st) ∧
    (∀ ok : CreateSuccess, (createBooking now newId req st).1 = .ok ok →
        CreateCommitted req st (createBooking now newId req st).2 ok.booking) := by
  constructor
  · intro e he
    exact createBooking_error_state he
  · intro ok hok
    cases hc : createBookingChecks now req st with
    | error e => simp [createBooking, hc] at hok
    | ok c =>
      simp only [createBooking, hc] at hok ⊢
      injection hok with hok
      rw [← hok]
      refine ⟨rfl, ?_, rfl, rfl, rfl, rfl, rfl, rfl⟩
      intro l
      cases hl : req.lock_id with
      | none => simp
      | some lockId =>
        simp only [List.mem_filter, bne_iff_ne, ne_eq, Option.some.injEq]
        constructor
        · rintro ⟨h1, h2⟩
          exact ⟨h1, fun h3 => h2 h3.symm⟩
        · rintro ⟨h1, h2⟩
          exact ⟨h1, fun h3 => h2 h3.symm⟩

/-- Witness for C1: a failing request (missing slot id) leaves the
sample state untouched; the valid locked request commits exactly one
booking and consumes lock 100. -/
theorem c1_create_booking_witness :
    (createBooking 1000 77 egBadReq egState).2 = egState ∧
      CreateCommitted egReq egState (createBooking 1000 77 egReq egState).2
        egOk.booking :=
  ⟨(c1_create_booking_atomic 1000 77 egBadReq egState).1 .MissingFields (by rfl),
    (c1_create_booking_atomic 1000 77 egReq egState).2 egOk (by rfl)⟩

/-! ## Claim C5 (corrected) -/

/-- **C5 counterexample.** A committed booking enqueues nothing in the
durable retry queue: the sample request commits (the booking row is
appended) while `queue_jobs` stays exactly as before — empty — because
the handler dispatches the invoice side effect directly with
`process.nextTick` instead of inserting a `queue_jobs` row. -/
theorem c5_no_retryjob_counterexample :
    (createBooking 1000 77 egReq egState).1 = Except.ok egOk ∧
      (createBooking 1000 77 egReq egState).2.queue_jobs = egState.queue_jobs ∧
      egState.queue_jobs = [] ∧
      (createBooking 1000 77 egReq egState).2.bookings = [egOk.booking] :=
  ⟨rfl, rfl, rfl, rfl⟩

/-- **C5 (amended).** Immediately after a booking commits, the handler
dispatches invoice issuance asynchronously (`process.nextTick` calling
the invoicing service directly) — outside the transaction and without
blocking the response, its failure logged rather than propagated — and
the ticket dispatch likewise; but no RetryJob is enqueued by the
booking path: `createBooking` leaves `queue_jobs` unchanged on success
and failure alike (receipt retry jobs are created only by the
payment-status trigger). -/
theorem c5_invoice_dispatch_after_commit (now newId : Nat)
    (req : CreateBookingRequest) (st : DBState) :
    (createBooking now newId req st).2.queue_jobs = st.queue_jobs ∧
    (∀ ok : CreateSuccess, (createBooking now newId req st).1 = .ok ok →
        (createBooking now newId req st).2.bookings = st.bookings ++ [ok.booking] ∧
        ok.ticketDeferred = true ∧
        (req.customer_phone ≠ [] → ok.invoiceDeferred = true)) := by
  constructor
  · cases hc : createBookingChecks now req st with
    | error e => simp [createBooking, hc]
    | ok c => simp [createBooking, hc]
  · intro ok hok
    cases hc : createBookingChecks now req st with
    | error e => simp [createBooking, hc] at hok
    | ok c =>
      simp only [createBooking, hc] at hok ⊢
      injection hok with hok
      rw [← hok]
      refine ⟨rfl, rfl, ?_⟩
      intro hphone
      cases hl : req.customer_phone with
      | nil => exact absurd hl hphone
      | cons a tl => simp [hl]

/-- Witness for C5's amended theorem on the sample committed booking. -/
theorem c5_invoice_dispatch_witness :
    (createBooking 1000 77 egReq egState).2.queue_jobs = egState.queue_jobs ∧
      ((createBooking 1000 77 egReq egState).2.bookings =
          egState.bookings ++ [egOk.booking] ∧
        egOk.ticketDeferred = true ∧
        egOk.invoiceDeferred = true) := by
  refine ⟨(c5_invoice_dispatch_after_commit 1000 77 egReq egState).1, ?_⟩
  obtain ⟨h1, h2, h3⟩ :=
    (c5_invoice_dispatch_after_commit 1000 77 egReq egState).2 egOk (by rfl)
  exact ⟨h1, h2, h3 (by decide)⟩

/-! ## Claim C2 -/

/-- **C2.** The commit-time capacity check is the authoritative one and
is never skipped because a lock exists: whenever the earlier steps pass
— including the case of a fully valid, matching lock
(`lockStepPasses`) — the slot row is re-read under `FOR UPDATE` and the
request fails with `InsufficientCapacity`, with no row written, as soon
as `available_capacity < visitor_count`. -/
theorem c2_final_capacity_check (now newId : Nat) (req : CreateBookingRequest)
    (st : DBState) (slotId serviceId tenantId : Nat) (tenant : Tenant) (slot : Slot)
    (ph : List Char)
    (hsl : req.slot_id = some slotId) (hsv : req.service_id = some serviceId)
    (htn : req.tenant_id = some tenantId)
    (hname : req.customer_name ≠ [])
    (hph : normalizePhoneNumber req.customer_phone = some ph)
    (hten : st.tenants.find? (fun t => t.id == tenantId) = some tenant)
    (hact : tenant.is_active = true)
    (hlock : lockStepPasses now req slotId st)
    (hslot : st.slots.find? (fun s => s.id == slotId) = some slot)
    (hav : slot.is_available = true)
    (hcap : slot.available_capacity < req.visitor_count) :
    createBooking now newId req st = (.error .InsufficientCapacity, st) := by
  apply createBooking_of_checks_error
  have hphone : req.customer_phone ≠ [] := by
    intro h0
    rw [h0] at hph
    exact Option.noConfusion hph
  rw [createBookingChecks.eq_def, hsl, hsv, htn]
  simp only
  rw [if_neg (by simp [hname, hphone]), hph]
  simp only
  rw [hten]
  simp only
  rw [if_neg (by simp [hact])]
  cases hl : req.lock_id with
  | none =>
    simp only [bind, Except.bind]
    rw [hslot]
    simp only
    rw [if_neg (by simp [hav]), if_pos hcap]
  | some lockId =>
    simp only [lockStepPasses, hl] at hlock
    obtain ⟨sid, lock, hsid, hfind, hsess, hlslot, hlcap⟩ := hlock
    rw [hsid]
    simp only
    rw [hfind]
    simp only
    rw [if_neg (by simp [hsess]), if_neg (by simp [hlslot]), if_neg (by simp [hlcap])]
    simp only [bind, Except.bind]
    rw [hslot]
    simp only
    rw [if_neg (by simp [hav]), if_pos hcap]

/-- A slot with only one free place. -/
def egLowSlot : Slot := ⟨10, 5, 1, 5, 0, true⟩

/-- The sample state with the low-capacity slot; the (still valid,
matching) lock 100 reserves 2 places. -/
def egLowState : DBState :=
  ⟨[egTenant], [egService], [], [egLowSlot], [egLock], [], [], [egUser]⟩

/-- Witness for C2: a valid, matching lock is presented, yet the final
capacity re-read (1 available < 2 requested) aborts the transaction. -/
theorem c2_final_capacity_witness :
    createBooking 1000 77 egReq egLowState = (.error .InsufficientCapacity, egLowState) :=
  c2_final_capacity_check 1000 77 egReq egLowState 10 20 1 egTenant egLowSlot
    "+201032560826".toList rfl rfl rfl (by decide) (by rfl) (by rfl) rfl
    ⟨"sess1", egLock, rfl, by rfl, rfl, rfl, rfl⟩ (by rfl) rfl (by decide)

/-! ## Claim C6 -/

/-- **C6.** When a lock id is supplied (with a session) and the earlier
validation passes, the `create` transaction aborts before any row is
written — returning the input state unchanged — with
`LockExpiredOrInvalid` when no lock with that id is on file with
`expires_at > now()`, with `SessionMismatch` when the lock belongs to a
different session, with `SlotMismatch` when its slot differs from the
request's, and with `QuantityMismatch` when its reserved capacity
differs from the requested visitor count. -/
theorem c6_lock_validation (now newId : Nat) (req : CreateBookingRequest)
    (st : DBState) (slotId serviceId tenantId lockId : Nat) (tenant : Tenant)
    (sid : String)
    (hsl : req.slot_id = some slotId) (hsv : req.service_id = some serviceId)
    (htn : req.tenant_id = some tenantId)
    (ph : List Char)
    (hname : req.customer_name ≠ [])
    (hph : normalizePhoneNumber req.customer_phone = some ph)
    (hten : st.tenants.find? (fun t => t.id == tenantId) = some tenant)
    (hact : tenant.is_active = true)
    (hl : req.lock_id = some lockId)
    (hsid : req.user_id.orElse (fun _ => req.session_id) = some sid) :
    (st.booking_locks.find?
        (fun l => l.id == lockId && decide (now < l.lock_expires_at)) = none →
      createBooking now newId req st = (.error .LockExpiredOrInvalid, st)) ∧
    (∀ lock : BookingLock,
      st.booking_locks.find?
          (fun l => l.id == lockId && decide (now < l.lock_expires_at)) = some lock →
        (lock.reserved_by_session_id ≠ sid →
          createBooking now newId req st = (.error .SessionMismatch, st)) ∧
        (lock.reserved_by_session_id = sid → lock.slot_id ≠ slotId →
          createBooking now newId req st = (.error .SlotMismatch, st)) ∧
        (lock.reserved_by_session_id = sid → lock.slot_id = slotId →
          lock.reserved_capacity ≠ req.visitor_count →
          createBooking now newId req st = (.error .QuantityMismatch, st))) := by
  have prefixStep : ∀ e : CreateError,
      (match req.lock_id with
        | none => Except.ok ()
        | some lockId =>
          match req.user_id.orElse fun _ => req.session_id with
          | none => Except.error CreateError.SessionRequired
          | some expectedSessionId =>
            match st.booking_locks.find?
                (fun l => l.id == lockId && decide (now < l.lock_expires_at)) with
            | none => Except.error CreateError.LockExpiredOrInvalid
            | some lock =>
              if lock.reserved_by_session_id ≠ expectedSessionId then
                Except.error CreateError.SessionMismatch
              else if lock.slot_id ≠ slotId then Except.error CreateError.SlotMismatch
              else if lock.reserved_capacity ≠ req.visitor_count then
                Except.error CreateError.QuantityMismatch
              else Except.ok ()) = Except.error e →
      createBooking now newId req st = (.error e, st) := by
    intro e he
    apply createBooking_of_checks_error
    have hphone : req.customer_phone ≠ [] := by
      intro h0
      rw [h0] at hph
      exact Option.noConfusion hph
    rw [createBookingChecks.eq_def, hsl, hsv, htn]
    simp only
    rw [if_neg (by simp [hname, hphone]), hph]
    simp only
    rw [hten]
    simp only
    rw [if_neg (by simp [hact]), he]
    simp only [bind, Except.bind]
  refine ⟨?_, ?_⟩
  · intro hfind
    apply prefixStep
    rw [hl]
    simp only
    rw [hsid]
    simp only
    rw [hfind]
  · intro lock hfind
    refine ⟨?_, ?_, ?_⟩
    · intro hsess
      apply prefixStep
      rw [hl]
      simp only
      rw [hsid]
      simp only
      rw [hfind]
      simp only
      rw [if_pos hsess]
    · intro hsess hslot
      apply prefixStep
      rw [hl]
      simp only
      rw [hsid]
      simp only
      rw [hfind]
      simp only
      rw [if_neg (by simp [hsess]), if_pos hslot]
    · intro hsess hslot hcap
      apply prefixStep
      rw [hl]
      simp only
      rw [hsid]
      simp only
      rw [hfind]
      simp only
      rw [if_neg (by simp [hsess]), if_neg (by simp [hslot]), if_pos hcap]

/-- `egState` but lock 100 already expired at `now = 1000`. -/
def egExpiredState : DBState :=
  ⟨[egTenant], [egService], [], [egSlot], [⟨100, 10, "sess1", 2, 0, 500⟩], [],
    [], [egUser]⟩

/-- `egState` but lock 100 held for slot 11. -/
def egWrongSlotState : DBState :=
  ⟨[egTenant], [egService], [], [egSlot], [⟨100, 11, "sess1", 2, 0, 120000⟩], [],
    [], [egUser]⟩

/-- `egState` but lock 100 holding 3 places. -/
def egWrongQtyState : DBState :=
  ⟨[egTenant], [egService], [], [egSlot], [⟨100, 10, "sess1", 3, 0, 120000⟩], [],
    [], [egUser]⟩

/-- `egReq` presented by a different checkout session. -/
def egOtherSessionReq : CreateBookingRequest :=
  ⟨some 10, some 20, some 1, "Alice".toList, "+201032560826".toList, none, 2,
    none, none, 100, none, none, some 100, some "other", none, "en", none⟩

/-- Witness for C6: the four lock failures on concrete states — the
expired lock, the foreign session, the wrong slot and the wrong
quantity — each abort with the input state returned unchanged. -/
theorem c6_lock_validation_witness :
    createBooking 1000 77 egReq egExpiredState =
        (.error .LockExpiredOrInvalid, egExpiredState) ∧
      createBooking 1000 77 egOtherSessionReq egState =
        (.error .SessionMismatch, egState) ∧
      createBooking 1000 77 egReq egWrongSlotState =
        (.error .SlotMismatch, egWrongSlotState) ∧
      createBooking 1000 77 egReq egWrongQtyState =
        (.error .QuantityMismatch, egWrongQtyState) := by
  refine ⟨?_, ?_, ?_, ?_⟩
  · exact (c6_lock_validation 1000 77 egReq egExpiredState 10 20 1 100 egTenant
      "sess1" rfl rfl rfl "+201032560826".toList (by decide) (by rfl) (by rfl)
      rfl rfl rfl).1 (by rfl)
  · exact ((c6_lock_validation 1000 77 egOtherSessionReq egState 10 20 1 100
      egTenant "other" rfl rfl rfl "+201032560826".toList (by decide) (by rfl)
      (by rfl) rfl rfl rfl).2 egLock (by rfl)).1 (by decide)
  · exact (((c6_lock_validation 1000 77 egReq egWrongSlotState 10 20 1 100
      egTenant "sess1" rfl rfl rfl "+201032560826".toList (by decide) (by rfl)
      (by rfl) rfl rfl rfl).2 ⟨100, 11, "sess1", 2, 0, 120000⟩
      (by rfl)).2.1 rfl (by decide))
  · exact (((c6_lock_validation 1000 77 egReq egWrongQtyState 10 20 1 100
      egTenant "sess1" rfl rfl rfl "+201032560826".toList (by decide) (by rfl)
      (by rfl) rfl rfl rfl).2 ⟨100, 10, "sess1", 3, 0, 120000⟩
      (by rfl)).2.2 rfl rfl (by decide))

/-! ## Helper lemmas: Slot Ledger release batching -/

theorem min_add_clamp (a x y t : Nat) :
    min (min (a + x) t + y) t = min (a + x + y) t := by
  rcases Nat.le_total (a + x) t with h | h
  · rw [Nat.min_eq_left h]
  · rw [Nat.min_eq_right h, Nat.min_eq_right (by omega), Nat.min_eq_right (by omega)]

theorem slotRelease_le {slotId amount : Nat} {slots : List Slot}
    (h : ∀ s ∈ slots, s.available_capacity ≤ s.total_capacity) :
    ∀ s ∈ slotRelease slotId amount slots,
      s.available_capacity ≤ s.total_capacity := by
  intro s hs
  rw [slotRelease] at hs
  obtain ⟨s0, hs0, rfl⟩ := List.mem_map.mp hs
  split
  · exact min_le_right _ _
  · exact h s0 hs0

theorem releaseLocksCapacity_eq_map (d : List BookingLock) (slots : List Slot)
    (h : ∀ s ∈ slots, s.available_capacity ≤ s.total_capacity) :
    releaseLocksCapacity d slots = slots.map (fun s =>
      { s with
          available_capacity :=
            min
              (s.available_capacity +
                ((d.filter (fun l => l.slot_id == s.id)).map
                  (fun l => l.reserved_capacity)).sum)
              s.total_capacity }) := by
  induction d generalizing slots with
  | nil =>
    rw [releaseLocksCapacity]
    simp only [List.foldl_nil, List.filter_nil, List.map_nil, List.sum_nil,
      Nat.add_zero]
    have : ∀ s ∈ slots,
        ({ s with available_capacity := min s.available_capacity s.total_capacity }
            : Slot) = id s := by
      intro s hs
      simp [Nat.min_eq_left (h s hs)]
    rw [List.map_congr_left this, List.map_id]
  | cons l d ih =>
    have step : releaseLocksCapacity (l :: d) slots =
        releaseLocksCapacity d (slotRelease l.slot_id l.reserved_capacity slots) := by
      rw [releaseLocksCapacity, releaseLocksCapacity, List.foldl_cons]
    rw [step, ih _ (slotRelease_le h), slotRelease, List.map_map]
    apply List.map_congr_left
    intro s hs
    simp only [Function.comp_apply]
    split
    case isTrue heq =>
      have h1 : s.id = l.slot_id := by simpa using heq
      have hx : (l.slot_id == s.id) = true := by
        simp only [beq_iff_eq]
        exact h1.symm
      simp only [List.filter_cons]
      rw [if_pos hx]
      simp only [List.map_cons, List.sum_cons]
      rw [min_add_clamp]
      congr 1
      omega
    case isFalse heq =>
      have h1 : ¬s.id = l.slot_id := by simpa using heq
      have hx : ¬(l.slot_id == s.id) = true := by
        simp only [beq_iff_eq]
        exact fun hh => h1 hh.symm
      simp only [List.filter_cons]
      rw [if_neg hx]

/-! ## Claim C3 -/

/-- **C3.** A Lock Reaper cycle at time `now` deletes exactly the lock
rows with `expires_at <= now` (a lock survives the sweep iff it is
unexpired), and every slot gets back the total reserved capacity of its
deleted locks — batched per slot through Slot Ledger `release`, which
clamps at `total_capacity` — while bookings, jobs and tenants are
untouched.  The hypothesis is the schema's `CHECK (available_capacity
<= total_capacity)`. -/
theorem c3_lock_reaper (now : Nat) (st : DBState)
    (hcap : ∀ s ∈ st.slots, s.available_capacity ≤ s.total_capacity) :
    (∀ l : BookingLock, l ∈ (cleanupExpiredLocks now st).booking_locks ↔
        (l ∈ st.booking_locks ∧ now < l.lock_expires_at)) ∧
    (cleanupExpiredLocks now st).slots = st.slots.map (fun s =>
      { s with
          available_capacity :=
            min (s.available_capacity + expiredReservedFor now st s.id)
              s.total_capacity }) ∧
    (cleanupExpiredLocks now st).bookings = st.bookings ∧
    (cleanupExpiredLocks now st).queue_jobs = st.queue_jobs ∧
    (cleanupExpiredLocks now st).tenants = st.tenants := by
  refine ⟨?_, ?_, rfl, rfl, rfl⟩
  · intro l
    simp only [cleanupExpiredLocks, List.mem_filter, Bool.not_eq_true',
      decide_eq_false_iff_not, Nat.not_le]
  · show releaseLocksCapacity
        (st.booking_locks.filter (fun l => decide (l.lock_expires_at ≤ now)))
        st.slots = _
    rw [releaseLocksCapacity_eq_map _ _ hcap]
    apply List.map_congr_left
    intro s hs
    rfl

/-- Witness for C3: at `now = 200000` the sample lock (expiry 120000)
is reaped and its 2 reserved places return to slot 10
(3 + 2 = 5 = total). -/
theorem c3_lock_reaper_witness :
    (cleanupExpiredLocks 200000 egState).slots = [⟨10, 5, 5, 5, 0, true⟩] ∧
      (egLock ∈ (cleanupExpiredLocks 200000 egState).booking_locks ↔
        (egLock ∈ egState.booking_locks ∧ 200000 < egLock.lock_expires_at)) ∧
      (cleanupExpiredLocks 200000 egState).bookings = egState.bookings := by
  have h := c3_lock_reaper 200000 egState (by decide)
  refine ⟨?_, h.1 egLock, h.2.2.1⟩
  rw [h.2.1]
  rfl

/-! ## Claim C4 -/

/-- **C4.** `releaseLock` deletes the lock row iff both the lock id and
the owning session id match an existing lock; `NotFound` leaves the
state untouched; and on a successful deletion (the matching row being
unique, as the primary key guarantees) the matching row disappears,
every other lock survives, slots of other ids are untouched, and the
lock's slot gets `reserved_capacity` added back to
`available_capacity` — exactly, when the sum stays within
`total_capacity`; clamped by Slot Ledger `release` otherwise. -/
theorem c4_release_lock (lockId : Nat) (userId sessionIdBody : Option String)
    (st : DBState) (sid : String)
    (hsid : userId.orElse (fun _ => sessionIdBody) = some sid) :
    ((releaseLock lockId userId sessionIdBody st).1 = .ok () ↔
      ∃ l ∈ st.booking_locks, l.id = lockId ∧ l.reserved_by_session_id = sid) ∧
    ((releaseLock lockId userId sessionIdBody st).1 = .error .NotFound →
      (releaseLock lockId userId sessionIdBody st).2 = st) ∧
    (∀ l : BookingLock,
      st.booking_locks.filter
          (fun l' => l'.id == lockId && l'.reserved_by_session_id == sid) = [l] →
      ((∀ l' : BookingLock,
          l' ∈ (releaseLock lockId userId sessionIdBody st).2.booking_locks ↔
            (l' ∈ st.booking_locks ∧
              ¬(l'.id = lockId ∧ l'.reserved_by_session_id = sid))) ∧
        (∀ s ∈ st.slots, ¬s.id = l.slot_id →
          s ∈ (releaseLock lockId userId sessionIdBody st).2.slots) ∧
        (∀ s ∈ st.slots, s.id = l.slot_id →
          ({ s with
              available_capacity :=
                min (s.available_capacity + l.reserved_capacity)
                  s.total_capacity } : Slot) ∈
            (releaseLock lockId userId sessionIdBody st).2.slots) ∧
        (∀ s ∈ st.slots, s.id = l.slot_id →
          s.available_capacity + l.reserved_capacity ≤ s.total_capacity →
          ({ s with
              available_capacity :=
                s.available_capacity + l.reserved_capacity } : Slot) ∈
            (releaseLock lockId userId sessionIdBody st).2.slots))) := by
  refine ⟨?_, ?_, ?_⟩
  · rw [releaseLock, hsid]
    simp only
    split
    case isTrue hempty =>
      simp only [List.isEmpty_iff, List.filter_eq_nil_iff] at hempty
      constructor
      · intro h0
        exact Except.noConfusion h0
      · rintro ⟨l, hl, hid, hs⟩
        exact absurd (by simp [hid, hs]) (hempty l hl)
    case isFalse hempty =>
      simp only [List.isEmpty_iff, ← List.filter_eq_nil_iff] at hempty
      constructor
      · intro _
        obtain ⟨l, hl⟩ := List.exists_mem_of_ne_nil _ hempty
        have := List.mem_filter.mp hl
        refine ⟨l, this.1, ?_, ?_⟩
        · have := this.2
          simp only [Bool.and_eq_true, beq_iff_eq] at this
          exact this.1
        · have := this.2
          simp only [Bool.and_eq_true, beq_iff_eq] at this
          exact this.2
      · intro _
        rfl
  · rw [releaseLock, hsid]
    simp only
    split
    · intro _
      rfl
    · intro h0
      exact Except.noConfusion h0
  · intro l hfilter
    have hne : (st.booking_locks.filter
        (fun l' => l'.id == lockId && l'.reserved_by_session_id == sid)).isEmpty
          = false := by
      rw [hfilter]
      rfl
    have hstep : (releaseLock lockId userId sessionIdBody st).2 =
        { st with
          booking_locks := st.booking_locks.filter
            (fun l' => !(l'.id == lockId && l'.reserved_by_session_id == sid))
          slots := releaseLocksCapacity
            (st.booking_locks.filter
              (fun l' => l'.id == lockId && l'.reserved_by_session_id == sid))
            st.slots } := by
      rw [releaseLock, hsid]
      simp only [hne]
      rfl
    rw [hstep, hfilter]
    have hslots : releaseLocksCapacity [l] st.slots =
        slotRelease l.slot_id l.reserved_capacity st.slots := by
      rw [releaseLocksCapacity, List.foldl_cons, List.foldl_nil]
    refine ⟨?_, ?_, ?_, ?_⟩
    · intro l'
      simp only [List.mem_filter, Bool.not_eq_true', Bool.and_eq_false_iff]
      constructor
      · rintro ⟨h1, h2⟩
        refine ⟨h1, ?_⟩
        rintro ⟨hid, hs⟩
        rcases h2 with h2 | h2
        · rw [beq_eq_false_iff_ne] at h2
          exact h2 hid
        · rw [beq_eq_false_iff_ne] at h2
          exact h2 hs
      · rintro ⟨h1, h2⟩
        refine ⟨h1, ?_⟩
        by_cases hid : l'.id = lockId
        · right
          rw [beq_eq_false_iff_ne]
          intro hs
          exact h2 ⟨hid, hs⟩
        · left
          rw [beq_eq_false_iff_ne]
          exact hid
    · intro s hs hne'
      simp only [hslots, slotRelease]
      have : (if s.id == l.slot_id then
          ({ s with
              available_capacity :=
                min (s.available_capacity + l.reserved_capacity)
                  s.total_capacity } : Slot)
        else s) = s := by
        rw [if_neg (by simpa using hne')]
      rw [← this]
      exact List.mem_map_of_mem _ hs
    · intro s hs heq
      simp only [hslots, slotRelease]
      have : (if s.id == l.slot_id then
          ({ s with
              available_capacity :=
                min (s.available_capacity + l.reserved_capacity)
                  s.total_capacity } : Slot)
        else s) =
          ({ s with
              available_capacity :=
                min (s.available_capacity + l.reserved_capacity)
                  s.total_capacity } : Slot) := by
        rw [if_pos (by simpa using heq)]
      rw [← this]
      exact List.mem_map_of_mem _ hs
    · intro s hs heq hle
      have h1 : min (s.available_capacity + l.reserved_capacity) s.total_capacity
          = s.available_capacity + l.reserved_capacity := Nat.min_eq_left hle
      simp only [hslots, slotRelease]
      have : (if s.id == l.slot_id then
          ({ s with
              available_capacity :=
                min (s.available_capacity + l.reserved_capacity)
                  s.total_capacity } : Slot)
        else s) =
          ({ s with
              available_capacity :=
                s.available_capacity + l.reserved_capacity } : Slot) := by
        rw [if_pos (by simpa using heq), h1]
      rw [← this]
      exact List.mem_map_of_mem _ hs

/-- Witness for C4: releasing lock 100 with its owning session deletes
it and returns its 2 places to slot 10 (3 + 2 = 5 ≤ total); releasing a
nonexistent lock 999 is `NotFound` and changes nothing. -/
theorem c4_release_lock_witness :
    (releaseLock 100 none (some "sess1") egState).1 = .ok () ∧
      (¬egLock ∈ (releaseLock 100 none (some "sess1") egState).2.booking_locks) ∧
      (⟨10, 5, 5, 5, 0, true⟩ : Slot) ∈
        (releaseLock 100 none (some "sess1") egState).2.slots ∧
      (releaseLock 999 none (some "sess1") egState).2 = egState := by
  have h := c4_release_lock 100 none (some "sess1") egState "sess1" rfl
  have h9 := c4_release_lock 999 none (some "sess1") egState "sess1" rfl
  obtain ⟨hm, hs1, hs2, hs3⟩ := h.2.2 egLock (by rfl)
  refine ⟨?_, ?_, ?_, h9.2.1 (by rfl)⟩
  · exact h.1.mpr ⟨egLock, by decide, rfl, rfl⟩
  · intro hmem
    have := (hm egLock).mp hmem
    exact this.2 ⟨rfl, rfl⟩
  · exact hs3 egSlot (by decide) rfl (by decide)

/-! ## Claim C7 -/

/-- **C7.** A fresh receipt job whose side effect fails at every
invocation is retried through three consecutive sweeps — the effect is
invoked exactly once per sweep, the job returning to `pending` with
attempt counters 1 and 2 — and the third failure marks it `failed`; a
`failed` job is never selected by any sweep (selection requires status
`pending`), so a fourth sweep leaves it untouched and never invokes the
effect again. -/
theorem c7_retry_exhaustion (j : QueueJob) (row : BookingInvoiceRow)
    (t1 t2 t3 : Nat)
    (hty : j.job_type = "zoho_receipt") (hst : j.status = "pending")
    (hat : j.payload_attempt = 0) (hstart : j.started_at = none)
    (hinv : row.zoho_invoice_id = none) (hpaid : row.payment_status = "paid")
    (h12 : t1 < t2 - STALE_THRESHOLD) (h23 : t2 < t3 - STALE_THRESHOLD) :
    (receiptSweepStep t1 (some row) false j).invokedEffect = true ∧
    (receiptSweepStep t1 (some row) false j).job.status = "pending" ∧
    (receiptSweepStep t1 (some row) false j).job.payload_attempt = 1 ∧
    (receiptSweepStep t2 (some row) false
        (receiptSweepStep t1 (some row) false j).job).invokedEffect = true ∧
    (receiptSweepStep t2 (some row) false
        (receiptSweepStep t1 (some row) false j).job).job.status = "pending" ∧
    (receiptSweepStep t2 (some row) false
        (receiptSweepStep t1 (some row) false j).job).job.payload_attempt = 2 ∧
    (receiptSweepStep t3 (some row) false
        (receiptSweepStep t2 (some row) false
          (receiptSweepStep t1 (some row) false j).job).job).invokedEffect = true ∧
    (receiptSweepStep t3 (some row) false
        (receiptSweepStep t2 (some row) false
          (receiptSweepStep t1 (some row) false j).job).job).job.status =
      "failed" ∧
    (∀ (t : Nat) (j' : QueueJob), j'.status = "failed" →
      selectedForSweep t j' = false) ∧
    (∀ t4 : Nat,
      receiptSweepStep t4 (some row) false
          (receiptSweepStep t3 (some row) false
            (receiptSweepStep t2 (some row) false
              (receiptSweepStep t1 (some row) false j).job).job).job =
        ⟨(receiptSweepStep t3 (some row) false
            (receiptSweepStep t2 (some row) false
              (receiptSweepStep t1 (some row) false j).job).job).job,
          false, none⟩) := by
  have hfailSel : ∀ (t : Nat) (j' : QueueJob), j'.status = "failed" →
      selectedForSweep t j' = false := by
    intro t j' hj'
    simp [selectedForSweep, hj']
  have e1 : receiptSweepStep t1 (some row) false j =
      ⟨{ j with
          status := "pending"
          started_at := some t1
          attempts := 1
          payload_attempt := 1 },
        true, some (calculateDelay 1)⟩ := by
    rw [receiptSweepStep,
      if_pos (by rw [selectedForSweep, hty, hst, hstart]; rfl)]
    rw [processReceiptJob]
    simp only [markProcessing, hinv, hpaid, hat]
    rfl
  rw [e1]
  have e2 : receiptSweepStep t2 (some row) false
      ({ j with
          status := "pending"
          started_at := some t1
          attempts := 1
          payload_attempt := 1 } : QueueJob) =
      ⟨{ j with
          status := "pending"
          started_at := some t2
          attempts := 2
          payload_attempt := 2 },
        true, some (calculateDelay 2)⟩ := by
    rw [receiptSweepStep,
      if_pos (by rw [selectedForSweep]; simp [hty, h12])]
    rw [processReceiptJob]
    simp only [markProcessing, hinv, hpaid]
    rfl
  rw [e2]
  have e3 : receiptSweepStep t3 (some row) false
      ({ j with
          status := "pending"
          started_at := some t2
          attempts := 2
          payload_attempt := 2 } : QueueJob) =
      ⟨{ j with
          status := "failed"
          started_at := some t3
          attempts := 2
          payload_attempt := 2
          completed_at := some t3 },
        true, none⟩ := by
    rw [receiptSweepStep,
      if_pos (by rw [selectedForSweep]; simp [hty, h23])]
    rw [processReceiptJob]
    simp only [markProcessing, hinv, hpaid]
    rfl
  rw [e3]
  refine ⟨rfl, rfl, rfl, rfl, rfl, rfl, rfl, rfl, hfailSel, ?_⟩
  intro t4
  rw [receiptSweepStep, if_neg]
  rw [hfailSel t4 _ rfl]
  simp

/-- Witness for C7: the concrete fresh job `egJob` against the paid,
uninvoiced booking row, swept at times 0, 600000 and 1200000. -/
theorem c7_retry_exhaustion_witness :
    (receiptSweepStep 0 (some egPaidRow) false egJob).invokedEffect = true ∧
      (receiptSweepStep 0 (some egPaidRow) false egJob).job.status = "pending" ∧
      (receiptSweepStep 1200000 (some egPaidRow) false
          (receiptSweepStep 600000 (some egPaidRow) false
            (receiptSweepStep 0 (some egPaidRow) false egJob).job).job).job.status =
        "failed" ∧
      selectedForSweep 99 (⟨1, "zoho_receipt", "failed", 500, 1, 2, 2, 0,
          some 1200000, some 1200000⟩ : QueueJob) = false := by
  have h := c7_retry_exhaustion egJob egPaidRow 0 600000 1200000 rfl rfl rfl rfl
    rfl rfl (by decide) (by decide)
  exact ⟨h.1, h.2.1, h.2.2.2.2.2.2.2.1, h.2.2.2.2.2.2.2.2.1 99 _ rfl⟩

/-! ## Helper lemmas: QR validation -/

theorem validateQR_cases (now : Nat) (userId : Option String)
    (bookingId : Option Nat) (st : DBState) :
    (∃ e : QRError, validateQR now userId bookingId st = (.error e, st)) ∨
    (∃ (uid : String) (bid : Nat) (booking : Booking),
      userId = some uid ∧ bookingId = some bid ∧
      bookingJoin st bid = some booking ∧ booking.qr_scanned = false ∧
      validateQR now userId bookingId st =
        (.ok booking,
          { st with
            bookings := st.bookings.map (fun b =>
              if b.id == bid then markScanned now uid b else b) })) := by
  rw [validateQR.eq_def]
  cases bookingId with
  | none => exact Or.inl ⟨_, rfl⟩
  | some bid =>
    cases userId with
    | none => exact Or.inl ⟨_, rfl⟩
    | some uid =>
      simp only
      cases st.users.find? (fun u => u.id == uid) with
      | none => exact Or.inl ⟨_, rfl⟩
      | some user =>
        simp only
        split
        · exact Or.inl ⟨_, rfl⟩
        · cases hj : bookingJoin st bid with
          | none => exact Or.inl ⟨_, rfl⟩
          | some booking =>
            simp only
            split
            · exact Or.inl ⟨_, rfl⟩
            · split
              case isTrue hscan => exact Or.inl ⟨_, rfl⟩
              case isFalse hscan =>
                exact Or.inr ⟨uid, bid, booking, rfl, rfl, hj,
                  Bool.not_eq_true _ ▸ hscan, rfl⟩

/-! ## Claim C10 -/

/-- **C10.** Every booking is checked in at most once through
`validate-qr`: every error outcome — in particular the already-scanned
409 — leaves the database untouched; when the role, tenant and lookup
checks pass, a booking with `qr_scanned = true` yields the
already-scanned error, and only a booking with `qr_scanned = false` is
transitioned — `qr_scanned := true`, `status := 'checked_in'` and the
scanned-at/by fields set via `markScanned` on the rows with the
requested id; and across every call the `qr_scanned` flag is monotone:
a row that was `true` is still `true` at the same position afterwards,
so no second check-in transition ever occurs. -/
theorem c10_qr_checked_in_once (now : Nat) (userId : Option String)
    (bookingId : Option Nat) (st : DBState) :
    (∀ e : QRError, (validateQR now userId bookingId st).1 = .error e →
        (validateQR now userId bookingId st).2 = st) ∧
    (∀ (uid : String) (bid : Nat) (user : User) (booking : Booking),
      userId = some uid → bookingId = some bid →
      st.users.find? (fun u => u.id == uid) = some user →
      canValidateQR user.role = true →
      bookingJoin st bid = some booking →
      booking.tenant_id = user.tenant_id →
        ((booking.qr_scanned = true →
            validateQR now userId bookingId st = (.error .AlreadyScanned, st)) ∧
          (booking.qr_scanned = false →
            (validateQR now userId bookingId st).1 = .ok booking ∧
            (validateQR now userId bookingId st).2.bookings =
              st.bookings.map (fun b =>
                if b.id == bid then markScanned now uid b else b) ∧
            (markScanned now uid booking).qr_scanned = true ∧
            (markScanned now uid booking).status = "checked_in" ∧
            (markScanned now uid booking).qr_scanned_at = some now ∧
            (markScanned now uid booking).qr_scanned_by_user_id = some uid ∧
            (markScanned now uid booking).checked_in_at = some now))) ∧
    ((validateQR now userId bookingId st).2.bookings.length =
        st.bookings.length ∧
      ∀ (i : Nat) (h1 : i < st.bookings.length)
          (h2 : i < (validateQR now userId bookingId st).2.bookings.length),
        (st.bookings.get ⟨i, h1⟩).qr_scanned = true →
          ((validateQR now userId bookingId st).2.bookings.get ⟨i, h2⟩).qr_scanned
            = true) := by
  refine ⟨?_, ?_, ?_⟩
  · intro e he
    rcases validateQR_cases now userId bookingId st with ⟨e', hv⟩ | hv
    · rw [hv]
    · obtain ⟨uid, bid, booking, -, -, -, -, hv⟩ := hv
      rw [hv] at he
      exact Except.noConfusion he
  · intro uid bid user booking huid hbid huser hrole hjoin hten
    subst huid
    subst hbid
    have hbody : validateQR now (some uid) (some bid) st =
        (if booking.qr_scanned then (.error .AlreadyScanned, st)
         else
          (.ok booking,
            { st with
              bookings := st.bookings.map (fun b =>
                if b.id == bid then markScanned now uid b else b) })) := by
      rw [validateQR.eq_def]
      simp only
      rw [huser]
      simp only
      rw [if_neg (by simp [hrole]), hjoin]
      simp only
      rw [if_neg (by simp [hten])]
    constructor
    · intro hscan
      rw [hbody, if_pos hscan]
    · intro hscan
      rw [hbody, if_neg (by simp [hscan])]
      exact ⟨rfl, rfl, rfl, rfl, rfl, rfl, rfl⟩
  · rcases validateQR_cases now userId bookingId st with ⟨e', hv⟩ | hv
    · rw [hv]
      exact ⟨rfl, fun i h1 h2 h => h⟩
    · obtain ⟨uid, bid, booking, -, -, -, -, hv⟩ := hv
      rw [hv]
      simp only [List.length_map]
      refine ⟨trivial, ?_⟩
      intro i h1 h2 h
      rw [List.get_eq_getElem, List.getElem_map]
      split
      · rfl
      · simpa using h

/-- Witness for C10 on `egQRState`: re-scanning the already-scanned
booking 500 errors and changes nothing, and the first scan of booking
501 transitions it to checked-in with the flag and audit fields set. -/
theorem c10_qr_checked_in_once_witness :
    validateQR 5000 (some "u1") (some 500) egQRState =
        (.error .AlreadyScanned, egQRState) ∧
      (validateQR 5000 (some "u1") (some 500) egQRState).2 = egQRState ∧
      (validateQR 5000 (some "u1") (some 501) egQRState).1 =
        .ok (egBooking 501) ∧
      (markScanned 5000 "u1" (egBooking 501)).qr_scanned = true ∧
      (markScanned 5000 "u1" (egBooking 501)).status = "checked_in" ∧
      ((validateQR 5000 (some "u1") (some 501) egQRState).2.bookings.get
          ⟨0, by decide⟩).qr_scanned = true := by
  have h500 := c10_qr_checked_in_once 5000 (some "u1") (some 500) egQRState
  have h501 := c10_qr_checked_in_once 5000 (some "u1") (some 501) egQRState
  have halready := (h500.2.1 "u1" 500 egUser egScannedBooking rfl rfl (by rfl)
    (by decide) (by rfl) rfl).1 rfl
  have hok := (h501.2.1 "u1" 501 egUser (egBooking 501) rfl rfl (by rfl)
    (by decide) (by rfl) rfl).2 rfl
  refine ⟨halready, h500.1 .AlreadyScanned (by rw [halready]), hok.1, hok.2.2.1,
    hok.2.2.2.1, ?_⟩
  exact h501.2.2.2 0 (by decide) (by rw [hok.2.1]; simp [egQRState]) rfl

end Bookati
